import Mathlib

/-!
Shallow embedding of the dandi-atlas in-browser 3D data browser
(the view-state synchronization logic of app.js), together with
theorems about its selection, projection, aggregation, badge and
URL-hash behaviour.
-/

namespace DandiAtlas

/- ## String utilities

JavaScript string primitives used by the app (String.prototype.split,
parseInt, the ^sub- replace) modelled over List Char with structural
recursion so that all proofs reduce in the kernel. -/

/-- Split a character list at every occurrence of the separator, mirroring
the semantics of the JavaScript split: the result always has at least one
(possibly empty) chunk, and an empty input yields a single empty chunk. -/
def splitOnCh (sep : Char) : List Char → List (List Char)
  | [] => [[]]
  | c :: rest =>
    let r := splitOnCh sep rest
    if c = sep then [] :: r
    else
      match r with
      | chunk :: more => (c :: chunk) :: more
      | [] => [[c]]

/-- Split a string, JavaScript style (see splitOnCh). -/
def jsSplit (sep : Char) (s : String) : List String :=
  (splitOnCh sep s.data).map String.mk

/-- Digit character for a value below 10. -/
def digitChar (d : Nat) : Char := Char.ofNat (48 + d)

/-- Decimal digits of a natural number, most significant first, with fuel. -/
def natDigitsAux : Nat → Nat → List Char
  | 0, _ => []
  | fuel + 1, n =>
    if n < 10 then [digitChar n]
    else natDigitsAux fuel (n / 10) ++ [digitChar (n % 10)]

/-- Decimal representation of a natural number as characters. -/
def natChars (n : Nat) : List Char := natDigitsAux (n + 1) n

/-- Decimal representation of a natural number as a string. -/
def natStr (n : Nat) : String := String.mk (natChars n)

/-- Numeric value of a decimal digit character. -/
def charDigit (c : Char) : Nat := c.toNat - 48

/-- JavaScript parseInt restricted to the inputs that occur in the hash
grammar: reads the longest leading run of decimal digits; an input with no
leading digit parses to none (NaN in the source). -/
def jsParseInt (s : String) : Option Nat :=
  let ds := s.data.takeWhile Char.isDigit
  if ds.isEmpty then none
  else some (ds.foldl (fun a c => a * 10 + charDigit c) 0)

/-- Truthiness of an optional string parameter: a missing parameter
(undefined) and the empty string are both falsy in JavaScript. -/
def truthy : Option String → Bool
  | none => false
  | some s => !(s = "")

/- ## Structure hierarchy (structure_graph.json)

One node of the Allen structure forest carries its id, its parent id as
recorded in the payload (parent_structure_id), and its ordered children. -/

/-- Node of the structure hierarchy forest. -/
inductive SNode where
  | node (id : Nat) (children : List SNode)
deriving Repr

/-- Identifier of the node. -/
def SNode.id : SNode → Nat
  | .node i _ => i

/-- Children of the node. -/
def SNode.children : SNode → List SNode
  | .node _ cs => cs

mutual

/-- Pre-order id walk of getDescendantIds: the node id followed by the walk
of each child in order. -/
def walkIds : SNode → List Nat
  | .node i cs => i :: walkForest cs

/-- Pre-order id walk over a list of sibling subtrees. -/
def walkForest : List SNode → List Nat
  | [] => []
  | c :: cs => walkIds c ++ walkForest cs

end

mutual

/-- Pre-order listing of all nodes of a subtree, mirroring the traversal
order of flattenTree. -/
def flattenNode : SNode → List SNode
  | .node i cs => .node i cs :: flattenForest cs

/-- Pre-order listing of all nodes of a forest. -/
def flattenForest : List SNode → List SNode
  | [] => []
  | c :: cs => flattenNode c ++ flattenForest cs

end

/-- Lookup in the idToStructure table built by flattenTree: assignments
happen in pre-order, so for a duplicated id the last pre-order occurrence
wins, which is the first match in the reversed pre-order listing. -/
def lookupStructure (forest : List SNode) (x : Nat) : Option SNode :=
  (flattenForest forest).reverse.find? (fun n => n.id = x)

/-- Set of ids returned by getDescendantIds: walk the subtree rooted at the
structure with the given id when the id is present in idToStructure,
otherwise return the empty set. -/
def getDescendantIds (forest : List SNode) (x : Nat) : List Nat :=
  match lookupStructure forest x with
  | some s => walkIds s
  | none => []

/- ## Mesh visibility projection

A loaded mesh is either shown (visible and pickable; applyActive or its
original material) or dimmed (applyDimmed sets visible to false, which also
removes it from the raycast pickable set). -/

/-- Visual role applied to a loaded mesh. -/
inductive Role where
  | active
  | dimmed
deriving Repr, DecidableEq

/-- Walk up parent_structure_id links and return the first ancestor whose
mesh is loaded, mirroring findNearestAncestorWithMesh; the fuel bounds the
walk, which in the source is a while loop over a finite acyclic chain. -/
def findNearestAncestorWithMesh (parentOf : Nat → Option Nat)
    (loaded : List Nat) : Nat → Nat → Option Nat
  | 0, _ => none
  | fuel + 1, sid =>
    match parentOf sid with
    | none => none
    | some p =>
      if p ∈ loaded then some p
      else findNearestAncestorWithMesh parentOf loaded fuel p

set_option linter.unusedVariables false in
/-- Projection applied by applyIsolation over every loaded mesh: the show
id is the selected structure when its mesh is loaded, otherwise the
fallback; exactly the mesh with the show id gets applyActive, every other
loaded mesh gets applyDimmed. The activeIds argument is received from
isolateRegion but not consulted by the source loop. -/
def applyIsolation (loaded : List Nat) (selectedStructureId : Nat)
    (activeIds : List Nat) (fallbackId : Option Nat) : Nat → Role :=
  let showId : Option Nat :=
    if selectedStructureId ∈ loaded then some selectedStructureId else fallbackId
  fun id => if some id = showId then Role.active else Role.dimmed

/-- Synchronous part of isolateRegion: compute the descendant set, resolve
the fallback mesh when the selected structure has no loaded mesh, and apply
the isolation projection to the already-loaded meshes. -/
def isolateRegion (forest : List SNode) (parentOf : Nat → Option Nat)
    (loaded : List Nat) (fuel : Nat) (structureId : Nat) : Nat → Role :=
  let activeIds := getDescendantIds forest structureId
  let fallbackId : Option Nat :=
    if structureId ∈ loaded then none
    else findNearestAncestorWithMesh parentOf loaded fuel structureId
  applyIsolation loaded structureId activeIds fallbackId

/-- Classification a newly loaded mesh receives at the end of loadMesh,
against the selection state current at load completion: under a region
selection the mesh is dimmed unless it lies in the descendant set of the
selected id or is the root outline; under a dandiset selection it is dimmed
unless its structure id belongs to the dandiset's structure list; with no
selection it keeps its original (visible) material. -/
def classifyLoadedMesh (forest : List SNode) (rootId : Nat)
    (dandisetToStructures : String → List Nat)
    (selectedId : Option Nat) (selectedDandiset : Option String)
    (structureId : Nat) : Role :=
  match selectedId with
  | some s =>
    if structureId ∈ getDescendantIds forest s ∨ structureId = rootId then
      Role.active
    else Role.dimmed
  | none =>
    match selectedDandiset with
    | some d =>
      if structureId ∈ dandisetToStructures d then Role.active else Role.dimmed
    | none => Role.active

/- ## Mesh fetch lifecycle (ensureMeshLoaded, failedMeshIds)

Event-level model of the lazy mesh loader. An ensure event is the
synchronous body of ensureMeshLoaded: when the id is neither in
meshObjects nor in failedMeshIds it calls loadMesh, which issues the
geometry fetch immediately; completion events are the OBJLoader callbacks
that record the mesh or the failure. -/

/-- State of the mesh loader: loaded ids (meshObjects keys), failed ids
(failedMeshIds), and the chronological list of issued fetches. -/
structure MeshLoadState where
  loaded : List Nat
  failed : List Nat
  fetched : List Nat
deriving Repr, DecidableEq

/-- Events driving the mesh loader. -/
inductive MeshEvent where
  | ensure (sid : Nat)
  | completeOk (sid : Nat)
  | completeFail (sid : Nat)
deriving Repr, DecidableEq

/-- Synchronous result of an ensureMeshLoaded call. -/
inductive EnsureOutcome where
  | cachedMesh
  | negCachedNull
  | fetchStarted
deriving Repr, DecidableEq

/-- Outcome of ensureMeshLoaded at the current state: an already-loaded id
returns the cached mesh, an id in the negative cache returns null, and any
other id starts a fetch via loadMesh. -/
def ensureOutcome (st : MeshLoadState) (sid : Nat) : EnsureOutcome :=
  if sid ∈ st.loaded then EnsureOutcome.cachedMesh
  else if sid ∈ st.failed then EnsureOutcome.negCachedNull
  else EnsureOutcome.fetchStarted

/-- State change of an ensureMeshLoaded call: only when neither cached nor
negatively cached does it issue a fetch. -/
def ensureStep (st : MeshLoadState) (sid : Nat) : MeshLoadState :=
  if sid ∈ st.loaded then st
  else if sid ∈ st.failed then st
  else { st with fetched := st.fetched ++ [sid] }

/-- One event step of the mesh loader. -/
def meshStep (st : MeshLoadState) : MeshEvent → MeshLoadState
  | .ensure sid => ensureStep st sid
  | .completeOk sid => { st with loaded := st.loaded ++ [sid] }
  | .completeFail sid => { st with failed := st.failed ++ [sid] }

/-- Run a sequence of mesh loader events. -/
def runMesh (st : MeshLoadState) (evs : List MeshEvent) : MeshLoadState :=
  evs.foldl meshStep st

/-- Initial loader state: nothing loaded, nothing failed, no fetches. -/
def initMeshState : MeshLoadState := ⟨[], [], []⟩

/-- Number of fetches issued so far for a given structure id. -/
def fetchCount (st : MeshLoadState) (sid : Nat) : Nat :=
  st.fetched.count sid

/- ## Selection state controller

Global selection variables of the app that the mutual-exclusion invariant
speaks about: selectedId, selectedDandiset, dandisetRegionFilter and
hiddenRegionIds. The remaining globals (subject counts, electrode points,
DOM classes) do not enter the invariant and are projections of these. -/

/-- Selection-relevant global state. -/
structure AppState where
  selectedId : Option Nat
  selectedDandiset : Option String
  dandisetRegionFilter : Option Nat
  hiddenRegionIds : List Nat
deriving Repr, DecidableEq

/-- State effect of selectRegion: store the region id, clear the dandiset
selection and the hidden set (dandisetRegionFilter is left untouched by the
source). -/
def selectRegionSt (sid : Nat) (st : AppState) : AppState :=
  { st with selectedId := some sid, selectedDandiset := none, hiddenRegionIds := [] }

/-- State effect of selectDandiset: store the dandiset id, clear the region
selection, the region filter and the hidden set. -/
def selectDandisetSt (did : String) (st : AppState) : AppState :=
  { st with selectedDandiset := some did, selectedId := none,
            dandisetRegionFilter := none, hiddenRegionIds := [] }

/-- State effect of filterDandisetPanelByRegion: a no-op without an active
dandiset selection, otherwise it records the region filter and changes
neither selection field. -/
def filterDandisetPanelByRegionSt (rid : Nat) (st : AppState) : AppState :=
  match st.selectedDandiset with
  | none => st
  | some _ => { st with dandisetRegionFilter := some rid }

/-- State effect of clearDandisetFilter: clears the filter, the hidden set
and both selections. -/
def clearDandisetFilterSt (st : AppState) : AppState :=
  { st with dandisetRegionFilter := none, hiddenRegionIds := [],
            selectedDandiset := none, selectedId := none }

/-- State effect of selectSubjectByDir: when a subject card or session row
is found and clicked the handler nulls dandisetRegionFilter; when no
matching card exists nothing changes. Neither case touches the selection
fields. -/
def selectSubjectByDirSt (clicked : Bool) (st : AppState) : AppState :=
  if clicked then { st with dandisetRegionFilter := none } else st

/- ## URL hash parsing -/

/-- Parameter list produced from a hash string the way applyHashState does:
split on the ampersand, split each pair on the equals sign, keep the first
two components (Object.fromEntries ignores the rest; a pair without an
equals sign gets an undefined value). -/
def parseHash (hash : String) : List (String × Option String) :=
  (jsSplit '&' hash).map fun p =>
    match jsSplit '=' p with
    | [] => ("", none)
    | [k] => (k, none)
    | k :: v :: _ => (k, some v)

/-- Parameter lookup: with duplicate keys Object.fromEntries keeps the last
binding, hence the first match in the reversed list. -/
def getParam (ps : List (String × Option String)) (k : String) : Option String :=
  match ps.reverse.find? (fun kv => kv.1 = k) with
  | some kv => kv.2
  | none => none

/-- Hash-state environment: the structure forest (idToStructure domain) and
the dandiset-to-structures table, whose lookup is undefined (none) for an
unknown dandiset id. -/
structure HashEnv where
  forest : List SNode
  dandisetToStructures : String → Option (List Nat)

/-- State effect of applyHashState on the selection globals, following the
source branch for branch: an empty hash resets to the default view; a
truthy region parameter wins over the dandiset branch; inside the dandiset
branch the nested region check and the subject branch run in order. The
clicked flag abstracts whether selectSubjectByDir finds a card to click. -/
def applyHashStateSt (env : HashEnv) (clicked : Bool) (st : AppState)
    (hash : String) : AppState :=
  if hash = "" then
    if st.selectedId = none ∧ st.selectedDandiset = none then st
    else { st with selectedId := none, selectedDandiset := none, hiddenRegionIds := [] }
  else
    let params := parseHash hash
    let pregion := getParam params "region"
    let pdandiset := getParam params "dandiset"
    let psubject := getParam params "subject"
    if truthy pregion then
      match jsParseInt (pregion.getD "") with
      | some sid =>
        if (lookupStructure env.forest sid).isSome then selectRegionSt sid st else st
      | none => st
    else if truthy pdandiset then
      let did := pdandiset.getD ""
      if (env.dandisetToStructures did).isSome then
        let st1 := selectDandisetSt did st
        let st2 :=
          if truthy pregion then
            match jsParseInt (pregion.getD "") with
            | some rid =>
              if (lookupStructure env.forest rid).isSome then
                filterDandisetPanelByRegionSt rid st1
              else st1
            | none => st1
          else st1
        if truthy psubject then selectSubjectByDirSt clicked st2 else st2
      else st
    else st

/-- Mutual-exclusion invariant: at most one of the region selection and the
dandiset selection is non-null. -/
def mutexInv (st : AppState) : Prop :=
  st.selectedId = none ∨ st.selectedDandiset = none

/- ## Navigation selection state and its hash encoding

Spec-level navigation state: the shapes that the hash encodes. The encoder
collects the strings the source passes to setHash at each call site
(selectRegion, selectDandiset, filterDandisetPanelByRegion, the subject
card and session row click handlers); clearDandisetFilter clears the hash
entirely. -/

/-- Navigation selection state. -/
inductive SelState where
  | noSel
  | regionSel (sid : Nat)
  | dandisetSel (did : String)
  | dandisetRegionSel (did : String) (rid : Nat)
  | subjectSel (did : String) (subjectDir : String) (session : Option String)
deriving Repr, DecidableEq

/-- Hash string produced for a navigation state by the setHash call sites. -/
def setHashFor : SelState → Option String
  | .noSel => none
  | .regionSel sid => some ("region=" ++ natStr sid)
  | .dandisetSel did => some ("dandiset=" ++ did)
  | .dandisetRegionSel did rid => some ("dandiset=" ++ did ++ "&region=" ++ natStr rid)
  | .subjectSel did s none => some ("dandiset=" ++ did ++ "&subject=" ++ s)
  | .subjectSel did s (some a) =>
    some ("dandiset=" ++ did ++ "&subject=" ++ s ++ "&session=" ++ a)

/-- Navigation-state transition of applyHashState. The branch structure
follows the source exactly: an empty hash resets to the default view; a
truthy region parameter takes the region branch; only otherwise does a
truthy dandiset parameter take the dandiset branch, inside which the nested
region check and then the subject branch run. The selSubject argument is
the navigation effect of selectSubjectByDir, which replays clicks on the
rendered panel. -/
def applyHashStateSel
    (selSubject : String → String → Option String → SelState → SelState)
    (env : HashEnv) (st : SelState) (hash : String) : SelState :=
  if hash = "" then SelState.noSel
  else
    let params := parseHash hash
    let pregion := getParam params "region"
    let pdandiset := getParam params "dandiset"
    let psubject := getParam params "subject"
    let psession := getParam params "session"
    if truthy pregion then
      match jsParseInt (pregion.getD "") with
      | some sid =>
        if (lookupStructure env.forest sid).isSome then SelState.regionSel sid else st
      | none => st
    else if truthy pdandiset then
      let did := pdandiset.getD ""
      if (env.dandisetToStructures did).isSome then
        let st1 := SelState.dandisetSel did
        let st2 :=
          if truthy pregion then
            match jsParseInt (pregion.getD "") with
            | some rid =>
              if (lookupStructure env.forest rid).isSome then
                SelState.dandisetRegionSel did rid
              else st1
            | none => st1
          else st1
        if truthy psubject then
          selSubject did (psubject.getD "") (if truthy psession then psession else none) st2
        else st2
      else st
    else st

/-- Navigation effect placeholder for selectSubjectByDir, which replays a
click on the rendered detail panel; the hash inputs examined below carry no
subject parameter, so this argument is never reached by their evaluation. -/
def noSubjectClick : String → String → Option String → SelState → SelState :=
  fun _ _ _ st => st

/- ## Dandiset asset records and subject aggregation -/

/-- One asset record of dandiset_assets.json: its path, its asset id and
the ids of the structures its regions list tags. -/
structure Asset where
  path : String
  assetId : String
  regions : List Nat
deriving Repr, DecidableEq

/-- Subject directory of an asset path: the leading path segment, or the
prefix before the first underscore for a flat path. This computation is
shared verbatim by computeDandisetSubjectCounts and updateDandisetPanel. -/
def subjectDirOf (path : String) : String :=
  let parts := jsSplit '/' path
  if parts.length > 1 then parts.headD "" else (jsSplit '_' path).headD ""

/-- Direct subject set of a structure id: the subject directories of the
assets whose region list contains the id (the directSubjects table of
computeDandisetSubjectCounts, read as a function). -/
def directSubjects (assets : List Asset) (rid : Nat) : List String :=
  (assets.filter fun a => rid ∈ a.regions).map fun a => subjectDirOf a.path

/-- Region ids occurring in the asset list: the keys of the directSubjects
table. -/
def regionIdsOf (assets : List Asset) : List Nat :=
  ((assets.map Asset.regions).flatten).dedup

/-- Proper ancestors of a structure id reached by the parent walk of the
source (current = parent; while current != null), bounded by fuel. -/
def ancestorChain (parentOf : Nat → Option Nat) : Nat → Nat → List Nat
  | 0, _ => []
  | fuel + 1, r =>
    match parentOf r with
    | none => []
    | some p => p :: ancestorChain parentOf fuel p

/-- One step of the totalSubjects accumulation: the direct subjects of a
region id are unioned into the totals of the id itself and of every
ancestor reached by the parent walk. -/
def totalStep (parentOf : Nat → Option Nat) (fuel : Nat) (assets : List Asset)
    (tot : Nat → List String) (rid : Nat) : Nat → List String :=
  fun a =>
    if a ∈ rid :: ancestorChain parentOf fuel rid then
      tot a ++ directSubjects assets rid
    else tot a

/-- Total subject table of computeDandisetSubjectCounts: fold the
accumulation step over every region id with direct subjects. -/
def totalSubjects (parentOf : Nat → Option Nat) (fuel : Nat)
    (assets : List Asset) : Nat → List String :=
  (regionIdsOf assets).foldl (totalStep parentOf fuel assets) fun _ => []

/- ## Tree badge rendering -/

/-- Rendered badge content: nothing, a lone direct count, a direct/total
pair with the slash separator, or a lone total count. -/
inductive BadgeText where
  | blank
  | direct (d : Nat)
  | slash (d t : Nat)
  | total (t : Nat)
deriving Repr, DecidableEq

/-- Display logic of renderBadge for a node with counts: empty when the
total is zero, the slash pair when the direct count is positive and differs
from the total, the lone direct count when positive and equal to the total,
and otherwise the lone total. -/
def renderBadgeCounts (direct total : Nat) : BadgeText :=
  if total = 0 then BadgeText.blank
  else if 0 < direct ∧ direct ≠ total then BadgeText.slash direct total
  else if 0 < direct then BadgeText.direct direct
  else BadgeText.total total

/- ## Subject grouping keys -/

/-- Strip a leading sub- prefix, mirroring the regex replace of
updateDandisetPanel. -/
def stripSubPrefix (s : String) : String :=
  match s.data with
  | 's' :: 'u' :: 'b' :: '-' :: rest => String.mk rest
  | _ => s

/-- Grouping key used by computeDandisetSubjectCounts: the raw subject
directory. -/
def countsSubjectKey (a : Asset) : String := subjectDirOf a.path

/-- Grouping key used by updateDandisetPanel: the subject directory with a
leading sub- stripped. -/
def panelSubjectKey (a : Asset) : String := stripSubPrefix (subjectDirOf a.path)

/- ## Concrete fixtures

Small hierarchy used to evaluate the definitions on concrete inputs: a
root-like structure 997 with children 313 and 512, and dandiset 001176
tagging structures 313 and 512 as in the spec scenarios. -/

/-- Example forest: structure 997 with children 313 and 512. -/
def exForest : List SNode := [.node 997 [.node 313 [], .node 512 []]]

/-- Example parent table matching exForest. -/
def exParentOf : Nat → Option Nat :=
  fun n => if n = 313 ∨ n = 512 then some 997 else none

/-- Example loaded-mesh set: the root-like mesh and one child mesh. -/
def exLoaded : List Nat := [997, 313]

/-- Example dandiset-to-structures table with the undefined-lookup default
applied, as read at the loadMesh call site. -/
def exD2S : String → List Nat :=
  fun did => if did = "001176" then [313, 512] else []

/-- Example hash environment over exForest with dandiset 001176 present. -/
def exEnv : HashEnv :=
  ⟨exForest, fun did => if did = "001176" then some [313, 512] else none⟩

/-- Example asset whose subject directory carries the sub- prefix. -/
def exAssetSub : Asset := ⟨"sub-a/f1.nwb", "A1", [313]⟩

/-- Example asset whose subject directory is the same name without the
prefix. -/
def exAssetBare : Asset := ⟨"a/f2.nwb", "A2", [313]⟩

/-- Example asset list on which the two grouping keys disagree. -/
def exAssets : List Asset := [exAssetSub, exAssetBare]

/-- Example asset list with ordinary sub- prefixed subject directories. -/
def exAssetsOk : List Asset :=
  [⟨"sub-a/f1.nwb", "A1", [313]⟩, ⟨"sub-b/f2.nwb", "A2", [512]⟩]

/- ## Theorems -/

theorem walkIds_head (i : Nat) (cs : List SNode) :
    walkIds (.node i cs) = i :: walkForest cs := by
  rw [walkIds]

theorem lookupStructure_id (forest : List SNode) (x : Nat) (s : SNode)
    (h : lookupStructure forest x = some s) : s.id = x := by
  have := List.find?_some h
  exact of_decide_eq_true this

theorem mem_getDescendantIds_of_lookup (forest : List SNode) (x : Nat) (s : SNode)
    (h : lookupStructure forest x = some s) :
    x ∈ getDescendantIds forest x := by
  have hid := lookupStructure_id forest x s h
  unfold getDescendantIds
  rw [h]
  show x ∈ walkIds s
  cases s with
  | node i cs =>
    simp only [SNode.id] at hid
    subst hid
    rw [walkIds_head]
    exact List.mem_cons_self _ _

set_option linter.unusedVariables false in
/-- Claim C8: for every structure id x present in the hierarchy index,
getDescendantIds returns a finite (list-valued) set that contains x itself,
on every forest with at least one root. -/
theorem getDescendantIds_contains_self (forest : List SNode) (x : Nat)
    (hroot : forest ≠ []) (h : (lookupStructure forest x).isSome) :
    x ∈ getDescendantIds forest x := by
  obtain ⟨s, hs⟩ := Option.isSome_iff_exists.mp h
  exact mem_getDescendantIds_of_lookup forest x s hs

/-- Witness for C8 at the concrete forest and structure id 313. -/
theorem getDescendantIds_contains_self_w :
    313 ∈ getDescendantIds exForest 313 :=
  getDescendantIds_contains_self exForest 313 (by simp [exForest]) (by decide)

/-- Claim C2: a mesh finishing its load while a selection is active is
classified against the selection state current at arrival: under a dandiset
selection whose structure set does not contain the structure id, and under
a region selection whose descendant set does not contain it (root outline
excepted), the new mesh is rendered dimmed, not active. -/
theorem classifyLoadedMesh_dimmed_outside_selection (forest : List SNode)
    (rootId : Nat) (d2s : String → List Nat) (sid : Nat) :
    (∀ d, sid ∉ d2s d →
      classifyLoadedMesh forest rootId d2s none (some d) sid = Role.dimmed) ∧
    (∀ s selDan, sid ∉ getDescendantIds forest s → sid ≠ rootId →
      classifyLoadedMesh forest rootId d2s (some s) selDan sid = Role.dimmed) := by
  constructor
  · intro d hd
    simp [classifyLoadedMesh, hd]
  · intro s selDan hdesc hroot
    simp [classifyLoadedMesh, hdesc, hroot]

/-- Witness for C2: structure 400 loading after dandiset 001176 (structures
313 and 512) is selected renders dimmed. -/
theorem classifyLoadedMesh_dimmed_outside_selection_w :
    classifyLoadedMesh exForest 997 exD2S none (some "001176") 400 = Role.dimmed :=
  (classifyLoadedMesh_dimmed_outside_selection exForest 997 exD2S 400).1
    "001176" (by decide)

/-- Claim C5: once a geometry fetch for a structure id has failed, the
failure sits in the negative cache, and an ensureMeshLoaded call for that
id returns null and leaves the state unchanged, issuing no fetch. -/
theorem ensureMeshLoaded_negative_cache (st : MeshLoadState) (sid : Nat)
    (hf : sid ∈ st.failed) (hl : sid ∉ st.loaded) :
    ensureOutcome st sid = EnsureOutcome.negCachedNull ∧ ensureStep st sid = st := by
  constructor
  · simp [ensureOutcome, hf, hl]
  · simp [ensureStep, hf, hl]

/-- Witness for C5 at a state where id 7 has failed once. -/
theorem ensureMeshLoaded_negative_cache_w :
    ensureOutcome ⟨[], [7], [7]⟩ 7 = EnsureOutcome.negCachedNull ∧
    ensureStep ⟨[], [7], [7]⟩ 7 = (⟨[], [7], [7]⟩ : MeshLoadState) :=
  ensureMeshLoaded_negative_cache ⟨[], [7], [7]⟩ 7 (by decide) (by decide)

/-- Claim C9: for badge counts with direct at most total (the aggregation
invariant of both count sources), the badge shows the slash pair exactly
when the direct count is positive and differs from the total, the lone
direct count when positive and equal to the total, and the lone total when
the direct count is zero and the total positive. -/
theorem renderBadge_display (direct total : Nat) (h : direct ≤ total) :
    (renderBadgeCounts direct total = BadgeText.slash direct total ↔
      0 < direct ∧ direct ≠ total) ∧
    (0 < direct → direct = total →
      renderBadgeCounts direct total = BadgeText.direct direct) ∧
    (direct = 0 → 0 < total →
      renderBadgeCounts direct total = BadgeText.total total) := by
  unfold renderBadgeCounts
  refine ⟨?_, ?_, ?_⟩
  · constructor
    · intro hsl
      split at hsl
      · exact absurd hsl (by simp)
      · split at hsl
        · assumption
        · split at hsl <;> simp at hsl
    · rintro ⟨hd, hne⟩
      have ht : total ≠ 0 := by omega
      simp [ht, hd, hne]
  · intro hd heq
    have ht : total ≠ 0 := by omega
    simp [ht, hd, heq]
  · intro hd ht
    have ht0 : total ≠ 0 := by omega
    simp [ht0, hd]

/-- Witness for C9 at the three example count pairs of the spec. -/
theorem renderBadge_display_w :
    renderBadgeCounts 3 7 = BadgeText.slash 3 7 ∧
    renderBadgeCounts 3 3 = BadgeText.direct 3 ∧
    renderBadgeCounts 0 5 = BadgeText.total 5 :=
  ⟨(renderBadge_display 3 7 (by decide)).1.mpr (by decide),
   (renderBadge_display 3 3 (by decide)).2.1 (by decide) rfl,
   (renderBadge_display 0 5 (by decide)).2.2 rfl (by decide)⟩

/-- Counterexample to C3: selecting region 997 with the descendant mesh 313
loaded dims mesh 313 even though 313 lies in descendantsOf 997, so the
projection does not keep the descendant meshes pickable. -/
theorem isolateRegion_dims_loaded_descendant :
    313 ∈ getDescendantIds exForest 997 ∧ 313 ∈ exLoaded ∧
    isolateRegion exForest exParentOf exLoaded 5 997 313 = Role.dimmed := by
  decide

/-- Amended C3: selecting a region keeps active exactly the selected
structure mesh when loaded — otherwise the nearest mesh-bearing ancestor
fallback — and dims every other loaded mesh, descendants included. -/
theorem isolateRegion_single_active (forest : List SNode)
    (parentOf : Nat → Option Nat) (loaded : List Nat) (fuel : Nat) (sid : Nat) :
    (sid ∈ loaded →
      isolateRegion forest parentOf loaded fuel sid sid = Role.active ∧
      ∀ id, id ≠ sid →
        isolateRegion forest parentOf loaded fuel sid id = Role.dimmed) ∧
    (sid ∉ loaded →
      ∀ id, isolateRegion forest parentOf loaded fuel sid id =
        if some id = findNearestAncestorWithMesh parentOf loaded fuel sid
        then Role.active else Role.dimmed) := by
  constructor
  · intro h
    constructor
    · simp [isolateRegion, applyIsolation, h]
    · intro id hne
      simp [isolateRegion, applyIsolation, h, hne]
  · intro h id
    simp [isolateRegion, applyIsolation, h]

/-- Witness for the amended C3 at the concrete fixture: mesh 997 is active
and the sibling mesh 512 dimmed when 997 is selected. -/
theorem isolateRegion_single_active_w :
    isolateRegion exForest exParentOf exLoaded 5 997 997 = Role.active ∧
    isolateRegion exForest exParentOf exLoaded 5 997 512 = Role.dimmed :=
  ⟨((isolateRegion_single_active exForest exParentOf exLoaded 5 997).1 (by decide)).1,
   ((isolateRegion_single_active exForest exParentOf exLoaded 5 997).1 (by decide)).2
     512 (by decide)⟩

/-- Counterexample to C4: two ensureMeshLoaded calls for id 5 both run
before the first fetch resolves; each issues a fetch, so the fetch count
for id 5 reaches two and the at-most-one-fetch property fails. -/
theorem ensureMeshLoaded_duplicate_inflight_fetch :
    fetchCount (runMesh initMeshState [.ensure 5, .ensure 5]) 5 = 2 ∧
    ¬ (∀ (evs : List MeshEvent) (sid : Nat),
        fetchCount (runMesh initMeshState evs) sid ≤ 1) := by
  constructor
  · decide
  · intro hall
    have h1 := hall [.ensure 5, .ensure 5] 5
    have h2 : fetchCount (runMesh initMeshState [.ensure 5, .ensure 5]) 5 = 2 := by
      decide
    omega

theorem meshStep_settled_preserved (st : MeshLoadState) (e : MeshEvent) (sid : Nat)
    (h : sid ∈ st.loaded ∨ sid ∈ st.failed) :
    sid ∈ (meshStep st e).loaded ∨ sid ∈ (meshStep st e).failed := by
  cases e with
  | ensure s =>
    simp only [meshStep, ensureStep]
    split
    · exact h
    · split
      · exact h
      · exact h
  | completeOk s =>
    rcases h with h | h
    · exact Or.inl (List.mem_append_left _ h)
    · exact Or.inr h
  | completeFail s =>
    rcases h with h | h
    · exact Or.inl h
    · exact Or.inr (List.mem_append_left _ h)

theorem meshStep_fetchCount_settled (st : MeshLoadState) (e : MeshEvent) (sid : Nat)
    (h : sid ∈ st.loaded ∨ sid ∈ st.failed) :
    fetchCount (meshStep st e) sid = fetchCount st sid := by
  cases e with
  | ensure s =>
    simp only [meshStep, ensureStep]
    split
    · rfl
    · split
      · rfl
      · rename_i hl hf
        have hne : s ≠ sid := by
          intro he
          subst he
          rcases h with h | h
          · exact hl h
          · exact hf h
        have hnot : sid ∉ [s] := by
          simp only [List.mem_singleton]
          exact fun he => hne he.symm
        simp [fetchCount, List.count_append, List.count_eq_zero.mpr hnot]
  | completeOk s => rfl
  | completeFail s => rfl

/-- Amended C4: deduplication covers settled outcomes only — once an id is
loaded or recorded as failed, no later sequence of loader events issues
another fetch for it; two calls racing before the first resolves do issue
duplicate fetches (see the counterexample). -/
theorem no_refetch_after_settled (evs : List MeshEvent) (st : MeshLoadState)
    (sid : Nat) (h : sid ∈ st.loaded ∨ sid ∈ st.failed) :
    fetchCount (runMesh st evs) sid = fetchCount st sid := by
  induction evs generalizing st with
  | nil => rfl
  | cons e rest ih =>
    have hpres := meshStep_settled_preserved st e sid h
    calc fetchCount (runMesh st (e :: rest)) sid
        = fetchCount (runMesh (meshStep st e) rest) sid := rfl
      _ = fetchCount (meshStep st e) sid := ih (meshStep st e) hpres
      _ = fetchCount st sid := meshStep_fetchCount_settled st e sid h

/-- Witness for the amended C4 at a state where id 5 already loaded. -/
theorem no_refetch_after_settled_w :
    fetchCount
      (runMesh ⟨[5], [], [5]⟩ [.ensure 5, .completeOk 6, .ensure 5, .ensure 5]) 5 =
    fetchCount ⟨[5], [], [5]⟩ 5 :=
  no_refetch_after_settled [.ensure 5, .completeOk 6, .ensure 5, .ensure 5]
    ⟨[5], [], [5]⟩ 5 (Or.inl (by decide))

theorem mutex_selectRegionSt (sid : Nat) (st : AppState) :
    mutexInv (selectRegionSt sid st) :=
  Or.inr rfl

theorem mutex_selectDandisetSt (did : String) (st : AppState) :
    mutexInv (selectDandisetSt did st) :=
  Or.inl rfl

theorem mutex_filterDandisetPanelByRegionSt (rid : Nat) (st : AppState)
    (h : mutexInv st) : mutexInv (filterDandisetPanelByRegionSt rid st) := by
  unfold filterDandisetPanelByRegionSt
  split
  · exact h
  · exact h

theorem mutex_selectSubjectByDirSt (clicked : Bool) (st : AppState)
    (h : mutexInv st) : mutexInv (selectSubjectByDirSt clicked st) := by
  unfold selectSubjectByDirSt
  split
  · exact h
  · exact h

/-- Claim C6: every selection-state operation preserves the invariant that
at most one of selectedId and selectedDandiset is non-null; selectRegion
and selectDandiset even establish it unconditionally by clearing the other
side. -/
theorem selection_ops_preserve_mutex (st : AppState) (h : mutexInv st) :
    (∀ sid, mutexInv (selectRegionSt sid st)) ∧
    (∀ did, mutexInv (selectDandisetSt did st)) ∧
    (∀ rid, mutexInv (filterDandisetPanelByRegionSt rid st)) ∧
    mutexInv (clearDandisetFilterSt st) ∧
    (∀ (env : HashEnv) (clicked : Bool) (hash : String),
      mutexInv (applyHashStateSt env clicked st hash)) := by
  refine ⟨fun sid => mutex_selectRegionSt sid st,
          fun did => mutex_selectDandisetSt did st,
          fun rid => mutex_filterDandisetPanelByRegionSt rid st h,
          Or.inl rfl, ?_⟩
  intro env clicked hash
  dsimp only [applyHashStateSt]
  repeat' split
  all_goals
    first
      | exact h
      | exact Or.inl rfl
      | exact Or.inr rfl
      | (apply mutex_selectSubjectByDirSt
         exact Or.inl rfl)

/-- Witness for C6 at the empty state and region id 997. -/
theorem selection_ops_preserve_mutex_w :
    mutexInv (selectRegionSt 997 ⟨none, none, none, []⟩) :=
  (selection_ops_preserve_mutex ⟨none, none, none, []⟩ (Or.inl rfl)).1 997

theorem mem_totalStep (parentOf : Nat → Option Nat) (fuel : Nat)
    (assets : List Asset) (tot : Nat → List String) (rid a : Nat) (x : String)
    (h : x ∈ tot a) : x ∈ totalStep parentOf fuel assets tot rid a := by
  unfold totalStep
  split
  · exact List.mem_append_left _ h
  · exact h

theorem mem_foldl_totalStep (parentOf : Nat → Option Nat) (fuel : Nat)
    (assets : List Asset) (l : List Nat) (tot : Nat → List String) (a : Nat)
    (x : String) (h : x ∈ tot a) :
    x ∈ l.foldl (totalStep parentOf fuel assets) tot a := by
  induction l generalizing tot with
  | nil => exact h
  | cons r rest ih =>
    exact ih _ (mem_totalStep parentOf fuel assets tot r a x h)

theorem mem_foldl_totalStep_of_mem (parentOf : Nat → Option Nat) (fuel : Nat)
    (assets : List Asset) (l : List Nat) (tot : Nat → List String) (rid : Nat)
    (hrid : rid ∈ l) (a : Nat)
    (ha : a ∈ rid :: ancestorChain parentOf fuel rid) (s : String)
    (hs : s ∈ directSubjects assets rid) :
    s ∈ l.foldl (totalStep parentOf fuel assets) tot a := by
  induction l generalizing tot with
  | nil => cases hrid
  | cons r rest ih =>
    rw [List.foldl_cons]
    rcases List.mem_cons.mp hrid with heq | hmem
    · subst heq
      apply mem_foldl_totalStep
      unfold totalStep
      rw [if_pos ha]
      exact List.mem_append_right _ hs
    · exact ih _ hmem

theorem mem_regionIdsOf (assets : List Asset) (rid : Nat)
    (h : directSubjects assets rid ≠ []) : rid ∈ regionIdsOf assets := by
  unfold directSubjects at h
  have hf : (assets.filter fun a => rid ∈ a.regions) ≠ [] := by
    intro he
    exact h (by rw [he]; rfl)
  obtain ⟨a, ha⟩ := List.exists_mem_of_ne_nil _ hf
  have := List.mem_filter.mp ha
  refine List.mem_dedup.mpr (List.mem_flatten.mpr ⟨a.regions, ?_, ?_⟩)
  · exact List.mem_map_of_mem _ this.1
  · exact of_decide_eq_true this.2

/-- Claim C7: the subject aggregation of computeDandisetSubjectCounts
satisfies the RegionStats-style invariant: for every structure id with
direct subjects the total subject set contains the direct subject set, and
the total set of every ancestor reached by the parent walk contains it as
well. -/
theorem computeDandisetSubjectCounts_total_superset
    (parentOf : Nat → Option Nat) (fuel : Nat) (assets : List Asset)
    (rid : Nat) (h : directSubjects assets rid ≠ []) :
    (∀ s ∈ directSubjects assets rid,
      s ∈ totalSubjects parentOf fuel assets rid) ∧
    (∀ a ∈ ancestorChain parentOf fuel rid, ∀ s ∈ directSubjects assets rid,
      s ∈ totalSubjects parentOf fuel assets a) := by
  have hrid := mem_regionIdsOf assets rid h
  constructor
  · intro s hs
    exact mem_foldl_totalStep_of_mem parentOf fuel assets (regionIdsOf assets)
      (fun _ => []) rid hrid rid (List.mem_cons_self _ _) s hs
  · intro a ha s hs
    exact mem_foldl_totalStep_of_mem parentOf fuel assets (regionIdsOf assets)
      (fun _ => []) rid hrid a (List.mem_cons_of_mem _ ha) s hs

/-- Witness for C7: subject sub-a tagged to structure 313 propagates into
the total subject set of the ancestor 997. -/
theorem computeDandisetSubjectCounts_total_superset_w :
    "sub-a" ∈ totalSubjects exParentOf 3 exAssetsOk 997 ∧
    "sub-a" ∈ totalSubjects exParentOf 3 exAssetsOk 313 :=
  ⟨(computeDandisetSubjectCounts_total_superset exParentOf 3 exAssetsOk 313
      (by decide)).2 997 (by decide) "sub-a" (by decide),
   (computeDandisetSubjectCounts_total_superset exParentOf 3 exAssetsOk 313
      (by decide)).1 "sub-a" (by decide)⟩

/-- Counterexample to C10: an asset under sub-a/ and an asset under a/ are
distinct subjects for the badge aggregation (raw subject directory key) but
merge into one subject in the detail panel (sub- stripped key), so the two
partitions of the asset list are not identical. -/
theorem subject_partitions_disagree :
    panelSubjectKey exAssetSub = panelSubjectKey exAssetBare ∧
    countsSubjectKey exAssetSub ≠ countsSubjectKey exAssetBare ∧
    ¬ (∀ (assets : List Asset), ∀ a ∈ assets, ∀ b ∈ assets,
        (countsSubjectKey a = countsSubjectKey b ↔
         panelSubjectKey a = panelSubjectKey b)) := by
  refine ⟨by decide, by decide, ?_⟩
  intro hall
  have h := (hall exAssets exAssetSub (by decide) exAssetBare (by decide)).mpr
    (by decide)
  exact absurd h (by decide)

/-- Amended C10: equal aggregation keys always give equal panel keys, and
the two partitions coincide whenever stripping the sub- prefix is injective
on the subject directories occurring in the asset list — in particular
whenever no two assets' subject directories differ only by the leading
sub-. -/
theorem subject_partitions_agree_of_inj (assets : List Asset)
    (hinj : ∀ a ∈ assets, ∀ b ∈ assets,
      stripSubPrefix (countsSubjectKey a) = stripSubPrefix (countsSubjectKey b) →
      countsSubjectKey a = countsSubjectKey b) :
    ∀ a ∈ assets, ∀ b ∈ assets,
      (countsSubjectKey a = countsSubjectKey b ↔
       panelSubjectKey a = panelSubjectKey b) := by
  intro a ha b hb
  constructor
  · intro h
    show stripSubPrefix (countsSubjectKey a) = stripSubPrefix (countsSubjectKey b)
    rw [h]
  · intro h
    exact hinj a ha b hb h

/-- Witness for the amended C10 on an asset list with ordinary sub-
prefixed subject directories. -/
theorem subject_partitions_agree_of_inj_w :
    countsSubjectKey (Asset.mk "sub-a/f1.nwb" "A1" [313]) =
      countsSubjectKey (Asset.mk "sub-b/f2.nwb" "A2" [512]) ↔
    panelSubjectKey (Asset.mk "sub-a/f1.nwb" "A1" [313]) =
      panelSubjectKey (Asset.mk "sub-b/f2.nwb" "A2" [512]) :=
  subject_partitions_agree_of_inj exAssetsOk (by decide)
    (Asset.mk "sub-a/f1.nwb" "A1" [313]) (by decide)
    (Asset.mk "sub-b/f2.nwb" "A2" [512]) (by decide)

/-- Claim C1 (failing evaluation): decoding the valid grammar string
dandiset=001176&region=313 takes the region branch of applyHashState —
params.region is truthy, so the dandiset branch and its nested region
handling are never reached — leaving a plain region selection; re-encoding
that state yields region=313, not the original string, while the state the
unreachable nested branch would have produced does re-encode to the
original string. -/
theorem applyHashState_drops_dandiset_from_combined_form :
    applyHashStateSel noSubjectClick exEnv SelState.noSel
        "dandiset=001176&region=313" = SelState.regionSel 313 ∧
    setHashFor (SelState.regionSel 313) = some "region=313" ∧
    setHashFor (SelState.dandisetRegionSel "001176" 313) =
      some "dandiset=001176&region=313" ∧
    (some "region=313" : Option String) ≠ some "dandiset=001176&region=313" := by
  refine ⟨by decide, by decide, by decide, by decide⟩

end DandiAtlas
